import Mathlib

/-!
Shallow embedding of `src/packages/backend/src/scripts/stt.py`.

The script is a single function `transcribe_audio` plus a CLI shim.  All
external effects (filesystem checks, the `wave` module, the Vosk engine,
`json.loads`) are modelled by an `Env` oracle; a call that can raise a
Python exception is modelled as `Except String`, the `String` being the
textual description `str(e)` of the raised exception.
-/

/-- The constant `MODEL_PATH` of stt.py line 13 (the value after
`os.path.expanduser`; its exact text is irrelevant, it is only used as a
key into `Env.pathExists`). -/
def MODEL_PATH : String := "~/.local/share/vosk/vosk-model-small-en-us-0.15"

/-- A result dictionary as built by stt.py: a `success` flag plus the
optional keys `text` and `error` (`none` = key absent from the dict). -/
structure PyDict where
  success : Bool
  text : Option String
  error : Option String
  deriving DecidableEq, Repr

/-- The observable state of a WAV file handle returned by
`wave.open(path, "rb")`: channel count, frame rate, and the successive
results of `readframes(4000)` given by their byte lengths (reads past the
end of the listed chunks return an empty buffer, i.e. length 0). -/
structure WavFile where
  nchannels : Nat
  framerate : Nat
  chunks : List Nat
  deriving DecidableEq, Repr

/-- Python truthiness of `d.get("text")`: the value is truthy exactly when
the key is present and its string is non-empty. -/
def pyTruthy : Option String → Bool
  | some t => t ≠ ""
  | none => false

/-- The external world as the script observes it.

* `pathExists` — `os.path.exists`
* `loadModel` — `Model(MODEL_PATH)` (may raise)
* `openWav` — `wave.open(path, "rb")` (may raise)
* `mkRecognizer` — `KaldiRecognizer(model, framerate)` followed by
  `rec.SetWords(True)` (either may raise)
* `accept i` — the combined effect, for the i-th non-empty chunk fed to
  the recognizer, of `rec.AcceptWaveform(data)` plus (when it returns
  True) `json.loads(rec.Result())`: an exception, or `ok none` when
  `AcceptWaveform` returned False, or `ok (some tf)` where `tf` is the
  optional `"text"` field of the parsed result
* `finalResult` — `json.loads(rec.FinalResult())`, giving the optional
  `"text"` field of the final flush (or an exception). -/
structure Env where
  pathExists : String → Bool
  loadModel : Except String Unit
  openWav : String → Except String WavFile
  mkRecognizer : Nat → Except String Unit
  accept : Nat → Except String (Option (Option String))
  finalResult : Except String (Option String)

/-- The read loop of stt.py lines 31-39: read chunks until an empty one
(or end of data), feed each to the recognizer, and append each truthy
`"text"` field to the accumulator.  `i` counts the chunks fed so far;
the result is the accumulated segment list, or the first exception. -/
def readLoop (env : Env) : List Nat → Nat → List String → Except String (List String)
  | [], _, acc => .ok acc
  | n :: rest, i, acc =>
    if n = 0 then .ok acc
    else
      match env.accept i with
      | .error e => .error e
      | .ok none => readLoop env rest (i + 1) acc
      | .ok (some tf) =>
        if pyTruthy tf then readLoop env rest (i + 1) (acc ++ [tf.getD ""])
        else readLoop env rest (i + 1) acc

/-- The body of the `try:` block of `transcribe_audio` (stt.py lines
18-49): early returns are `ok`, any raised exception is `error`. -/
def transcribe_body (env : Env) (audio_path : String) : Except String PyDict :=
  if env.pathExists MODEL_PATH = false then
    .ok ⟨false, none, some "Vosk model not found"⟩
  else
    match env.loadModel with
    | .error e => .error e
    | .ok _ =>
      match env.openWav audio_path with
      | .error e => .error e
      | .ok wf =>
        if wf.nchannels ≠ 1 then
          .ok ⟨false, none, some "Audio must be mono"⟩
        else
          match env.mkRecognizer wf.framerate with
          | .error e => .error e
          | .ok _ =>
            match readLoop env wf.chunks 0 [] with
            | .error e => .error e
            | .ok segs =>
              match env.finalResult with
              | .error e => .error e
              | .ok ft =>
                let segs2 := if pyTruthy ft then segs ++ [ft.getD ""] else segs
                .ok ⟨true, some (String.intercalate " " segs2).trim, none⟩

/-- An invocation of `transcribe_audio`, instrumented with the resource
trace: whether `wave.open` opened a file handle, and whether `wf.close()`
(stt.py line 46) was executed before the function returned.  The result
component mirrors the source exactly: each early return, the success
return, and the `except` handler that converts an exception `e` into a
failure dict carrying `str(e)`. -/
structure RunOutcome where
  result : PyDict
  wavOpened : Bool
  wavClosed : Bool
  deriving DecidableEq, Repr

/-- `transcribe_audio` together with its resource trace.  `wf.close()`
appears in the source only once, after the final flush on the success
path; every other exit (early returns, exception handler) leaves the
handle unclosed. -/
def transcribe_run (env : Env) (audio_path : String) : RunOutcome :=
  if env.pathExists MODEL_PATH = false then
    ⟨⟨false, none, some "Vosk model not found"⟩, false, false⟩
  else
    match env.loadModel with
    | .error e => ⟨⟨false, none, some e⟩, false, false⟩
    | .ok _ =>
      match env.openWav audio_path with
      | .error e => ⟨⟨false, none, some e⟩, false, false⟩
      | .ok wf =>
        if wf.nchannels ≠ 1 then
          ⟨⟨false, none, some "Audio must be mono"⟩, true, false⟩
        else
          match env.mkRecognizer wf.framerate with
          | .error e => ⟨⟨false, none, some e⟩, true, false⟩
          | .ok _ =>
            match readLoop env wf.chunks 0 [] with
            | .error e => ⟨⟨false, none, some e⟩, true, false⟩
            | .ok segs =>
              match env.finalResult with
              | .error e => ⟨⟨false, none, some e⟩, true, false⟩
              | .ok ft =>
                let segs2 := if pyTruthy ft then segs ++ [ft.getD ""] else segs
                ⟨⟨true, some (String.intercalate " " segs2).trim, none⟩, true, true⟩

/-- `transcribe_audio` as the caller sees it: the returned dict. -/
def transcribe_audio (env : Env) (audio_path : String) : PyDict :=
  (transcribe_run env audio_path).result

/-- The usage-error dict printed by the CLI (stt.py line 56). -/
def usageDict : PyDict := ⟨false, none, some "Usage: stt.py <audio_file>"⟩

/-- The missing-file dict printed by the CLI (stt.py line 62). -/
def fileNotFoundDict (p : String) : PyDict :=
  ⟨false, none, some ("File not found: " ++ p)⟩

/-- The observable outcome of one process run: the JSON objects printed
to stdout (as dicts, `json.dumps` being injective on them), the exit
status, and whether `transcribe_audio` was invoked. -/
structure CliOutcome where
  stdout : List PyDict
  exitCode : Nat
  driverInvoked : Bool
  deriving DecidableEq, Repr

/-- The `__main__` block of stt.py lines 54-66.  `argv` is `sys.argv`,
program name included, so `len(sys.argv) != 2` means the count of
positional arguments differs from one. -/
def mainRun (env : Env) (argv : List String) : CliOutcome :=
  match argv with
  | [_, audio_file] =>
    if env.pathExists audio_file = false then
      ⟨[fileNotFoundDict audio_file], 1, false⟩
    else
      ⟨[transcribe_audio env audio_file], 0, true⟩
  | _ => ⟨[usageDict], 1, false⟩

/-- The spec-side view of the read loop under the assumption that no
engine call raises: the ordered list of truthy `"text"` segments among
the chunks processed before the first empty one. -/
def loopTexts (env : Env) : Nat → List Nat → List String
  | _, [] => []
  | i, n :: rest =>
    if n = 0 then []
    else
      match env.accept i with
      | .error _ => loopTexts env (i + 1) rest
      | .ok none => loopTexts env (i + 1) rest
      | .ok (some tf) =>
        if pyTruthy tf then tf.getD "" :: loopTexts env (i + 1) rest
        else loopTexts env (i + 1) rest

/-- The final-flush segment list: a singleton when the flushed text is
truthy, empty otherwise. -/
def finalTexts (ft : Option String) : List String :=
  if pyTruthy ft then [ft.getD ""] else []

/-- The shape invariant on result dicts: exactly one of `text` (success)
or `error` (failure) is populated, never both, never neither. -/
def wellFormed (d : PyDict) : Prop :=
  (d.success = true ∧ d.text.isSome = true ∧ d.error = none) ∨
  (d.success = false ∧ d.error.isSome = true ∧ d.text = none)

/- Concrete environments used as witnesses. -/

/-- An environment in which no path exists (in particular the model is
missing) and opening the WAV would raise. -/
def envNoModel : Env where
  pathExists := fun _ => false
  loadModel := .ok ()
  openWav := fun _ => .error "no such wav"
  mkRecognizer := fun _ => .ok ()
  accept := fun _ => .ok none
  finalResult := .ok none

/-- An environment providing a two-channel (stereo) WAV file. -/
def envStereo : Env where
  pathExists := fun _ => true
  loadModel := .ok ()
  openWav := fun _ => .ok ⟨2, 16000, []⟩
  mkRecognizer := fun _ => .ok ()
  accept := fun _ => .ok none
  finalResult := .ok none

/-- An environment providing a mono WAV on which the recognizer yields no
text at all (silence). -/
def envSilence : Env where
  pathExists := fun _ => true
  loadModel := .ok ()
  openWav := fun _ => .ok ⟨1, 16000, [4000, 4000]⟩
  mkRecognizer := fun _ => .ok ()
  accept := fun _ => .ok none
  finalResult := .ok none

/- Helper lemmas. -/

/-- The result component of the instrumented run is the try-block result
when no exception occurs, and the failure dict carrying the exception
text otherwise. -/
theorem transcribe_run_result (env : Env) (p : String) :
    (transcribe_run env p).result =
      (match transcribe_body env p with
       | .ok d => d
       | .error e => ⟨false, none, some e⟩) := by
  unfold transcribe_run transcribe_body
  split
  · rfl
  · cases env.loadModel with
    | error e => rfl
    | ok u =>
      cases h : env.openWav p with
      | error e => rfl
      | ok wf =>
        by_cases hc : wf.nchannels ≠ 1
        · simp [hc]
        · simp only [hc, if_false]
          cases env.mkRecognizer wf.framerate with
          | error e => rfl
          | ok u2 =>
            cases readLoop env wf.chunks 0 [] with
            | error e => rfl
            | ok segs =>
              cases env.finalResult with
              | error e => rfl
              | ok ft => rfl

/-- When no recognizer call raises, the read loop succeeds and returns
the accumulator extended by the spec-side segment list. -/
theorem readLoop_of_no_error (env : Env) (ha : ∀ i, ∃ r, env.accept i = .ok r) :
    ∀ (chunks : List Nat) (i : Nat) (acc : List String),
      readLoop env chunks i acc = .ok (acc ++ loopTexts env i chunks) := by
  intro chunks
  induction chunks with
  | nil => intro i acc; simp [readLoop, loopTexts]
  | cons n rest ih =>
    intro i acc
    by_cases hn : n = 0
    · simp [readLoop, loopTexts, hn]
    · obtain ⟨r, hr⟩ := ha i
      cases r with
      | none => simp [readLoop, loopTexts, hn, hr, ih]
      | some tf =>
        by_cases ht : pyTruthy tf = true
        · simp [readLoop, loopTexts, hn, hr, ht, ih]
        · simp [readLoop, loopTexts, hn, hr, ht, ih]

/-- Every dict the driver can produce satisfies the shape invariant. -/
theorem transcribe_run_wellFormed (env : Env) (p : String) :
    wellFormed (transcribe_audio env p) := by
  rw [transcribe_audio]
  unfold transcribe_run
  split
  · right; exact ⟨rfl, rfl, rfl⟩
  · split
    · right; exact ⟨rfl, rfl, rfl⟩
    · split
      · right; exact ⟨rfl, rfl, rfl⟩
      · split
        · right; exact ⟨rfl, rfl, rfl⟩
        · split
          · right; exact ⟨rfl, rfl, rfl⟩
          · split
            · right; exact ⟨rfl, rfl, rfl⟩
            · split
              · right; exact ⟨rfl, rfl, rfl⟩
              · left; exact ⟨rfl, rfl, rfl⟩

/- Claim theorems. -/

/-- Claim C1: for every input path and every behaviour of the external
environment, `transcribe_audio` returns a dict (it is total, so never
raises or aborts the process); when the try-block raises an exception
with text `e`, the returned dict is the failure dict with success false
and error equal to `e`. -/
theorem transcribe_audio_catches_all (env : Env) (p : String) :
    (∃ d, transcribe_body env p = .ok d ∧ transcribe_audio env p = d) ∨
    (∃ e, transcribe_body env p = .error e ∧
      transcribe_audio env p = ⟨false, none, some e⟩) := by
  have h := transcribe_run_result env p
  cases hb : transcribe_body env p with
  | ok d =>
    left
    exact ⟨d, rfl, by rw [transcribe_audio, h, hb]⟩
  | error e =>
    right
    exact ⟨e, rfl, by rw [transcribe_audio, h, hb]⟩

/-- Claim C2: every dict returned by `transcribe_audio` and every dict
printed by the CLI has a boolean success flag and exactly one of the
text (success) or error (failure) keys populated — never both, never
neither. -/
theorem result_shape_invariant :
    (∀ (env : Env) (p : String), wellFormed (transcribe_audio env p)) ∧
    (∀ (env : Env) (argv : List String) (d : PyDict),
      d ∈ (mainRun env argv).stdout → wellFormed d) := by
  have hta : ∀ (env : Env) (p : String), wellFormed (transcribe_audio env p) :=
    fun env p => transcribe_run_wellFormed env p
  refine ⟨hta, ?_⟩
  intro env argv d hd
  match argv with
  | [a, audio_file] =>
    cases hpe : env.pathExists audio_file with
    | false =>
      simp only [mainRun, hpe, if_pos, List.mem_singleton] at hd
      subst hd
      right; exact ⟨rfl, rfl, rfl⟩
    | true =>
      simp only [mainRun, hpe, Bool.true_eq_false, if_neg, List.mem_singleton,
        reduceCtorEq, if_false] at hd
      subst hd
      exact hta env audio_file
  | [] =>
    simp only [mainRun, List.mem_singleton] at hd
    subst hd
    right; exact ⟨rfl, rfl, rfl⟩
  | [a] =>
    simp only [mainRun, List.mem_singleton] at hd
    subst hd
    right; exact ⟨rfl, rfl, rfl⟩
  | a :: b :: c :: rest =>
    simp only [mainRun, List.mem_singleton] at hd
    subst hd
    right; exact ⟨rfl, rfl, rfl⟩

/-- Claim C2 witness: the invariant evaluated at concrete inputs, for the
driver and for a CLI print. -/
theorem result_shape_invariant_witness :
    wellFormed (transcribe_audio envNoModel "a.wav") ∧ wellFormed usageDict :=
  ⟨result_shape_invariant.1 envNoModel "a.wav",
   result_shape_invariant.2 envNoModel [] usageDict (by simp [mainRun])⟩

/-- Claim C3 counterexample: with the model present and a stereo WAV, the
mono check fails after the file was opened, and the function returns
without having executed `wf.close()` — so the audio file handle is not
released on this exit path. -/
theorem wav_left_open_on_mono_return :
    (transcribe_run envStereo "a.wav").result =
      ⟨false, none, some "Audio must be mono"⟩ ∧
    (transcribe_run envStereo "a.wav").wavOpened = true ∧
    (transcribe_run envStereo "a.wav").wavClosed = false := by
  refine ⟨?_, ?_, ?_⟩ <;> rfl

/-- Claim C3 amended: the audio file handle is explicitly closed before
return exactly on the success path (`wf.close()` runs if and only if the
returned dict has success true); on the non-mono early-failure return
the file has been opened and is not closed before the function
returns. -/
theorem wav_close_success_only (env : Env) (p : String) :
    ((transcribe_run env p).wavClosed = true ↔
      (transcribe_run env p).result.success = true) ∧
    (∀ wf : WavFile, env.pathExists MODEL_PATH = true →
      env.loadModel = .ok () → env.openWav p = .ok wf → wf.nchannels ≠ 1 →
      (transcribe_run env p).wavOpened = true ∧
      (transcribe_run env p).wavClosed = false) := by
  constructor
  · unfold transcribe_run
    split
    · simp
    · cases env.loadModel with
      | error e => simp
      | ok u =>
        cases env.openWav p with
        | error e => simp
        | ok wf =>
          by_cases hc : wf.nchannels ≠ 1
          · simp [hc]
          · simp only [hc, if_false]
            cases env.mkRecognizer wf.framerate with
            | error e => simp
            | ok u2 =>
              cases readLoop env wf.chunks 0 [] with
              | error e => simp
              | ok segs =>
                cases env.finalResult with
                | error e => simp
                | ok ft => simp
  · intro wf hm hl ho hc
    unfold transcribe_run
    rw [hm, hl, ho]
    simp [hc]

/-- Claim C3 amended witness: the equivalence and the non-mono clause
evaluated at concrete environments. -/
theorem wav_close_success_only_witness :
    (transcribe_run envSilence "a.wav").wavClosed = true ∧
    (transcribe_run envStereo "b.wav").wavOpened = true ∧
    (transcribe_run envStereo "b.wav").wavClosed = false :=
  ⟨(wav_close_success_only envSilence "a.wav").1.mpr rfl,
   (wav_close_success_only envStereo "b.wav").2 ⟨2, 16000, []⟩ rfl rfl rfl
     (by decide)⟩

/-- Claim C4: whatever the input path and the rest of the environment, if
the model asset is absent from its fixed path, `transcribe_audio`
returns exactly the failure dict with error "Vosk model not found". -/
theorem model_missing_result (env : Env) (p : String)
    (h : env.pathExists MODEL_PATH = false) :
    transcribe_audio env p = ⟨false, none, some "Vosk model not found"⟩ := by
  rw [transcribe_audio]
  unfold transcribe_run
  rw [h]
  rfl

/-- Claim C4 witness: the missing-model result at a concrete
environment. -/
theorem model_missing_result_witness :
    transcribe_audio envNoModel "a.wav" =
      ⟨false, none, some "Vosk model not found"⟩ :=
  model_missing_result envNoModel "a.wav" rfl

/-- Claim C5: when the model exists, loading succeeds, and the file opens
as a WAV whose header reports a channel count other than one,
`transcribe_audio` returns exactly the failure dict with error
"Audio must be mono". -/
theorem non_mono_result (env : Env) (p : String) (wf : WavFile)
    (hm : env.pathExists MODEL_PATH = true) (hl : env.loadModel = .ok ())
    (ho : env.openWav p = .ok wf) (hc : wf.nchannels ≠ 1) :
    transcribe_audio env p = ⟨false, none, some "Audio must be mono"⟩ := by
  rw [transcribe_audio]
  unfold transcribe_run
  rw [hm, hl, ho]
  simp [hc]

/-- Claim C5 witness: the non-mono result on a concrete stereo WAV. -/
theorem non_mono_result_witness :
    transcribe_audio envStereo "a.wav" =
      ⟨false, none, some "Audio must be mono"⟩ :=
  non_mono_result envStereo "a.wav" ⟨2, 16000, []⟩ rfl rfl rfl (by decide)

/-- Trimming whitespace from the start of the empty string leaves its
position at zero. -/
theorem takeWhileAux_empty :
    Substring.takeWhileAux "" ⟨0⟩ Char.isWhitespace ⟨0⟩ = ⟨0⟩ := by
  unfold Substring.takeWhileAux
  rfl

/-- Trimming whitespace from the end of the empty string leaves its
position at zero. -/
theorem takeRightWhileAux_empty :
    Substring.takeRightWhileAux "" ⟨0⟩ Char.isWhitespace ⟨0⟩ = ⟨0⟩ := by
  unfold Substring.takeRightWhileAux
  rfl

/-- Trimming the empty string gives the empty string. -/
theorem trim_empty_string : "".trim = "" := by
  show ("".toSubstring.trim).toString = ""
  simp only [String.toSubstring, Substring.trim]
  simp only [show String.endPos "" = ⟨0⟩ from rfl, takeWhileAux_empty,
    takeRightWhileAux_empty]
  rfl

/-- Claim C6: on the success path (model present, mono WAV, no engine
call raising), the returned text is the ordered list of truthy segments
collected by the read loop, followed by the truthy final-flush segment
if any, joined with single spaces and trimmed; in particular when no
segment is truthy (silence) the result is success with empty text. -/
theorem success_text_joined (env : Env) (p : String) (wf : WavFile)
    (ft : Option String)
    (hm : env.pathExists MODEL_PATH = true) (hl : env.loadModel = .ok ())
    (ho : env.openWav p = .ok wf) (hc : wf.nchannels = 1)
    (hr : env.mkRecognizer wf.framerate = .ok ())
    (ha : ∀ i, ∃ r, env.accept i = .ok r)
    (hf : env.finalResult = .ok ft) :
    transcribe_audio env p =
      ⟨true, some ((String.intercalate " "
        (loopTexts env 0 wf.chunks ++ finalTexts ft)).trim), none⟩ ∧
    (loopTexts env 0 wf.chunks = [] → finalTexts ft = [] →
      transcribe_audio env p = ⟨true, some "", none⟩) := by
  have hloop := readLoop_of_no_error env ha wf.chunks 0 []
  rw [List.nil_append] at hloop
  have hmain : transcribe_audio env p =
      ⟨true, some ((String.intercalate " "
        (loopTexts env 0 wf.chunks ++ finalTexts ft)).trim), none⟩ := by
    rw [transcribe_audio]
    unfold transcribe_run
    rw [hm, hl, ho]
    simp only [hc, ne_eq, not_true_eq_false, if_false]
    rw [hr, hloop, hf]
    cases hft : pyTruthy ft <;> simp [finalTexts, hft]
  refine ⟨hmain, ?_⟩
  intro h1 h2
  have hi : String.intercalate " " (([] : List String) ++ []) = "" := rfl
  rw [hmain, h1, h2, hi, trim_empty_string]

/-- Claim C6 witness: a concrete mono WAV on which the recognizer yields
no text gives success with empty text. -/
theorem success_text_joined_witness :
    transcribe_audio envSilence "a.wav" = ⟨true, some "", none⟩ :=
  (success_text_joined envSilence "a.wav" ⟨1, 16000, [4000, 4000]⟩ none
    rfl rfl rfl rfl rfl (fun _ => ⟨none, rfl⟩) rfl).2 rfl rfl

/-- Claim C7: invoked with exactly one argument naming an existing path,
the process prints the driver result (whether success or failure) and
exits with status 0. -/
theorem cli_existing_file (env : Env) (prog p : String)
    (h : env.pathExists p = true) :
    mainRun env [prog, p] = ⟨[transcribe_audio env p], 0, true⟩ := by
  simp [mainRun, h]

/-- Claim C7 witness: a concrete run on an existing path whose driver
result is a failure dict still prints it and exits 0. -/
theorem cli_existing_file_witness :
    mainRun envStereo ["stt.py", "a.wav"] =
      ⟨[transcribe_audio envStereo "a.wav"], 0, true⟩ :=
  cli_existing_file envStereo "stt.py" "a.wav" rfl

/-- Claim C8: invoked with an argument vector whose length differs from
two (zero positional arguments, or more than one), the process prints
the usage dict and exits with status 1. -/
theorem cli_usage_error (env : Env) (argv : List String)
    (h : argv.length ≠ 2) :
    mainRun env argv = ⟨[usageDict], 1, false⟩ := by
  match argv with
  | [] => rfl
  | [a] => rfl
  | [a, b] => exact absurd rfl h
  | a :: b :: c :: rest => rfl

/-- Claim C8 witness: a run with zero positional arguments. -/
theorem cli_usage_error_witness :
    mainRun envNoModel ["stt.py"] = ⟨[usageDict], 1, false⟩ :=
  cli_usage_error envNoModel ["stt.py"] (by decide)

/-- Claim C9: invoked with exactly one argument naming a path that does
not exist, the process prints the file-not-found dict carrying that path
and exits with status 1, without invoking the transcription driver. -/
theorem cli_missing_file (env : Env) (prog p : String)
    (h : env.pathExists p = false) :
    mainRun env [prog, p] = ⟨[fileNotFoundDict p], 1, false⟩ := by
  simp [mainRun, h]

/-- Claim C9 witness: a concrete run on a nonexistent path. -/
theorem cli_missing_file_witness :
    mainRun envNoModel ["stt.py", "ghost.wav"] =
      ⟨[fileNotFoundDict "ghost.wav"], 1, false⟩ :=
  cli_missing_file envNoModel "stt.py" "ghost.wav" rfl

/-- Claim C10: when the model asset is missing, the driver returns the
model-not-found failure with the audio file never opened (the run trace
records no `wave.open` call), for every input path — including paths the
environment could not open or would report as non-mono. -/
theorem model_check_before_open (env : Env) (p : String)
    (h : env.pathExists MODEL_PATH = false) :
    transcribe_run env p =
      ⟨⟨false, none, some "Vosk model not found"⟩, false, false⟩ := by
  unfold transcribe_run
  rw [h]
  rfl

/-- Claim C10 witness: with the model missing and an environment whose
`wave.open` would raise, the driver still returns model-not-found
without opening the file. -/
theorem model_check_before_open_witness :
    transcribe_run envNoModel "not-a-wav.txt" =
      ⟨⟨false, none, some "Vosk model not found"⟩, false, false⟩ :=
  model_check_before_open envNoModel "not-a-wav.txt" rfl
